import Mathlib

deriving instance DecidableEq for Except

/-!
Verification of the CarService service-workflow engine.

This file gives a shallow embedding of the Service status workflow of
`app/models.py` (class `Service`), of the cost validation, and of the
vehicle-form uniqueness/year checks of `app/forms.py`, and proves the
specified properties about them.

Conventions of the embedding:
* Python `datetime` values are modelled by `PyDate`, carrying only the
  observation the workflow code makes of a date: its strftime rendering with format %Y-%m-%d.
* Python exceptions are modelled with `Except (String × Service)`: the
  error case carries the exception message together with the state of the
  Service object at the moment of the raise (Python mutates in place, so a
  raise after a partial mutation leaves that mutation behind; all workflow
  guards raise before mutating, which the theorems below make explicit).
* User full names are modelled by an environment `users : Nat → String`
  mapping a user id to `User.get_full_name()` of the existing user with
  that id.
* Python truthiness of an optional integer column (`not self.employee_id`)
  is `pyTruthyOptNat`: `None` and `0` are falsy.
-/

/-- The 18 service statuses of `Service` in `app/models.py`. -/
inductive Status where
  | pending
  | accepted
  | scheduled
  | client_confirmed
  | waiting_for_vehicle
  | vehicle_received
  | diagnosis_pending
  | diagnosis_completed
  | client_consultation
  | client_approved
  | waiting_for_parts
  | in_progress
  | completed
  | ready_for_payment
  | payment_received
  | ready_for_pickup
  | finished
  | cancelled
deriving DecidableEq, Repr

/-- The Python string value of each status constant. -/
def statusStr : Status → String
  | .pending => "pending"
  | .accepted => "accepted"
  | .scheduled => "scheduled"
  | .client_confirmed => "client_confirmed"
  | .waiting_for_vehicle => "waiting_for_vehicle"
  | .vehicle_received => "vehicle_received"
  | .diagnosis_pending => "diagnosis_pending"
  | .diagnosis_completed => "diagnosis_completed"
  | .client_consultation => "client_consultation"
  | .client_approved => "client_approved"
  | .waiting_for_parts => "waiting_for_parts"
  | .in_progress => "in_progress"
  | .completed => "completed"
  | .ready_for_payment => "ready_for_payment"
  | .payment_received => "payment_received"
  | .ready_for_pickup => "ready_for_pickup"
  | .finished => "finished"
  | .cancelled => "cancelled"

/-- Embedding of `Service.STATUS_TRANSITIONS` of `app/models.py`: the edge set of each
status.  Every status is a key of the Python dict, so the `.get(status, [])`
default never fires for a member of the status set. -/
def STATUS_TRANSITIONS : Status → List Status
  | .pending => [.accepted, .cancelled]
  | .accepted => [.scheduled, .cancelled, .waiting_for_vehicle]
  | .scheduled => [.client_confirmed, .pending, .cancelled]
  | .client_confirmed => [.waiting_for_vehicle, .cancelled]
  | .waiting_for_vehicle => [.vehicle_received, .cancelled]
  | .vehicle_received => [.diagnosis_pending, .cancelled]
  | .diagnosis_pending => [.diagnosis_completed, .cancelled]
  | .diagnosis_completed => [.client_approved, .client_consultation, .cancelled]
  | .client_consultation => [.diagnosis_completed, .cancelled]
  | .client_approved => [.waiting_for_parts, .in_progress, .cancelled]
  | .waiting_for_parts => [.in_progress, .cancelled]
  | .in_progress => [.completed, .cancelled]
  | .completed => [.ready_for_payment, .cancelled]
  | .ready_for_payment => [.payment_received, .cancelled]
  | .payment_received => [.ready_for_pickup, .in_progress, .cancelled]
  | .ready_for_pickup => [.finished, .cancelled]
  | .finished => []
  | .cancelled => []

/-- Embedding of `Service.CLIENT_CANCELLABLE_STATES` of `app/models.py`. -/
def CLIENT_CANCELLABLE_STATES : List Status :=
  [.pending, .scheduled, .client_confirmed]

/-- Embedding of `Service.CLIENT_DATE_CHANGE_STATES` of `app/models.py`. -/
def CLIENT_DATE_CHANGE_STATES : List Status :=
  [.scheduled, .client_confirmed]

/-- Embedding of `Service.EMPLOYEE_REQUIRED_STATES` of `app/models.py`. -/
def EMPLOYEE_REQUIRED_STATES : List Status :=
  [.accepted, .scheduled, .client_confirmed, .waiting_for_vehicle,
   .vehicle_received, .diagnosis_pending, .diagnosis_completed,
   .client_consultation, .client_approved, .waiting_for_parts,
   .in_progress, .completed, .ready_for_payment, .payment_received,
   .ready_for_pickup, .finished]

/-- A `datetime` value as observed by the workflow code: only its
strftime rendering with format %Y-%m-%d is ever consumed. -/
structure PyDate where
  ymd : String
deriving DecidableEq, Repr

/-- One `ServiceHistory` row as created by `Service.add_history_entry`:
the acting user id and the free-text description. -/
structure HistoryEntry where
  user_id : Nat
  description : String
deriving DecidableEq, Repr

/-- The mutable state of a `Service` object that the workflow operations
of `app/models.py` read or write. -/
structure Service where
  status : Status
  employee_id : Option Nat
  preferred_date : Option PyDate
  scheduled_date : Option PyDate
  estimated_cost : Option ℚ
  actual_cost : Option ℚ
  history : List HistoryEntry
deriving DecidableEq, Repr

/-- Python truthiness of a nullable integer column: `None` and `0` are
falsy, every other integer is truthy. -/
def pyTruthyOptNat : Option Nat → Bool
  | none => false
  | some n => n != 0

/-- Python truthiness of an optional string (`if additional_info:`):
`None` and the empty string are falsy. -/
def pyAppendNote (base : String) (note : Option String) : String :=
  match note with
  | none => base
  | some info => if info = "" then base else base ++ ": " ++ info

/-- Embedding of `Service.add_history_entry` of `app/models.py`: appends one new
`ServiceHistory` row attributed to `user_id`. -/
def Service.add_history_entry (s : Service) (description : String)
    (user_id : Nat) : Service :=
  { s with history := s.history ++ [⟨user_id, description⟩] }

/-- Embedding of `Service.can_transition_to` of `app/models.py`: the edge check against
`STATUS_TRANSITIONS`, then the employee check for
`EMPLOYEE_REQUIRED_STATES` targets. -/
def Service.can_transition_to (s : Service) (new_status : Status) : Bool :=
  if new_status ∉ STATUS_TRANSITIONS s.status then
    false
  else if new_status ∈ EMPLOYEE_REQUIRED_STATES ∧ ¬ pyTruthyOptNat s.employee_id then
    false
  else
    true

/-- Embedding of `Service.can_client_cancel` of `app/models.py`. -/
def Service.can_client_cancel (s : Service) : Bool :=
  s.status ∈ CLIENT_CANCELLABLE_STATES

/-- Embedding of `Service.can_client_request_date_change` of `app/models.py`. -/
def Service.can_client_request_date_change (s : Service) : Bool :=
  s.status ∈ CLIENT_DATE_CHANGE_STATES

/-- Embedding of `Service.update_status` of `app/models.py`: guard via
`can_transition_to`, with the missing-employee cause reported in
preference to the no-such-edge cause, then the status mutation and one
history entry. -/
def Service.update_status (s : Service) (new_status : Status) (user_id : Nat)
    (additional_info : Option String) : Except (String × Service) Service :=
  if ¬ s.can_transition_to new_status then
    if new_status ∈ EMPLOYEE_REQUIRED_STATES ∧ ¬ pyTruthyOptNat s.employee_id then
      .error ("Cannot transition to this status without assigned employee", s)
    else
      .error ("Invalid status transition from " ++ statusStr s.status
              ++ " to " ++ statusStr new_status, s)
  else
    let description :=
      pyAppendNote ("Status changed from " ++ statusStr s.status
                    ++ " to " ++ statusStr new_status) additional_info
    .ok (Service.add_history_entry { s with status := new_status } description user_id)

/-- Embedding of `Service.assign_employee` of `app/models.py`: no transition-table
check; a `pending` service is moved to `accepted`, any other keeps its
status; the employee reference is set last.  `users` models
`User.get_full_name()` by id. -/
def Service.assign_employee (users : Nat → String) (s : Service)
    (employee_id : Nat) (user_id : Nat) : Service :=
  let s' :=
    if s.status = Status.pending then
      Service.add_history_entry { s with status := Status.accepted }
        ("Service assigned to " ++ users employee_id) user_id
    else
      let old_employee :=
        match s.employee_id with
        | some k => users k
        | none => "None"
      Service.add_history_entry s
        ("Service reassigned from " ++ old_employee ++ " to " ++ users employee_id)
        user_id
  { s' with employee_id := some employee_id }

/-- Embedding of `Service.request_date_change` of `app/models.py`: a client request is
guarded by the hard-coded status list `[pending, accepted, scheduled]`
(not by `CLIENT_DATE_CHANGE_STATES`); an employee proposal has no status
guard at all.  Both branches set `preferred_date`; the client branch
forces `pending`, the employee branch forces `scheduled` and sets
`scheduled_date`. -/
def Service.request_date_change (s : Service) (new_date : PyDate)
    (user_id : Nat) (is_client_request : Bool) :
    Except (String × Service) Service :=
  if is_client_request = true ∧
      s.status ∉ [Status.pending, Status.accepted, Status.scheduled] then
    .error ("Client can only request date changes for pending or scheduled services", s)
  else
    let s1 := { s with preferred_date := some new_date }
    if is_client_request then
      .ok (Service.add_history_entry { s1 with status := Status.pending }
        ("Client requested date change to " ++ new_date.ymd) user_id)
    else
      .ok (Service.add_history_entry
        { s1 with status := Status.scheduled, scheduled_date := some new_date }
        ("Employee proposed new date: " ++ new_date.ymd) user_id)

/-- Embedding of `Service.confirm_date` of `app/models.py`. -/
def Service.confirm_date (s : Service) (user_id : Nat) :
    Except (String × Service) Service :=
  if s.status ≠ Status.scheduled then
    .error ("Can only confirm dates for scheduled services", s)
  else if ¬ pyTruthyOptNat s.employee_id then
    .error ("Cannot confirm date without assigned employee", s)
  else
    .ok (Service.add_history_entry { s with status := Status.client_confirmed }
      "Client confirmed the scheduled date" user_id)

/-- Embedding of `Service.reject_date` of `app/models.py`. -/
def Service.reject_date (s : Service) (user_id : Nat)
    (reason : Option String) : Except (String × Service) Service :=
  if s.status ≠ Status.scheduled then
    .error ("Can only reject dates for scheduled services", s)
  else
    .ok (Service.add_history_entry { s with status := Status.pending }
      (pyAppendNote "Client rejected the scheduled date" reason) user_id)

/-- Embedding of `Service.cancel` of `app/models.py`: guarded only by
`can_transition_to(STATUS_CANCELLED)`, not by `CLIENT_CANCELLABLE_STATES`. -/
def Service.cancel (s : Service) (user_id : Nat) (reason : Option String) :
    Except (String × Service) Service :=
  if ¬ s.can_transition_to Status.cancelled then
    .error ("Service cannot be cancelled in its current state", s)
  else
    .ok (Service.add_history_entry { s with status := Status.cancelled }
      (pyAppendNote "Service cancelled" reason) user_id)

/-- Digit string to a natural number (helper for `pyFloat`). -/
def digitsToNat (cs : List Char) : Nat :=
  cs.foldl (fun acc c => acc * 10 + (c.toNat - 48)) 0

/-- Strip surrounding spaces (Python `float()` ignores surrounding
whitespace). -/
def trimSpaces (cs : List Char) : List Char :=
  ((cs.dropWhile (· = ' ')).reverse.dropWhile (· = ' ')).reverse

/-- The sign, digit value and fraction length of a plain decimal literal
accepted by Python `float()`: optional surrounding whitespace, optional
sign, digits with at most one decimal point and at least one digit;
everything else (in particular non-numeric text such as `"abc"`) makes
`float()` raise, i.e. yields `none`.  Exponent and inf/nan forms are
outside the inputs the application ever passes and are not modelled. -/
def parseDecimal (str : String) : Option (Bool × Nat × Nat) :=
  let cs := trimSpaces str.toList
  let neg := cs.head? = some '-'
  let body := if cs.head? = some '-' ∨ cs.head? = some '+' then cs.drop 1 else cs
  let intPart := body.takeWhile (· ≠ '.')
  match body.dropWhile (· ≠ '.') with
  | [] =>
    if intPart ≠ [] ∧ intPart.all Char.isDigit then
      some (neg, digitsToNat intPart, 0)
    else
      none
  | _ :: fracPart =>
    if (intPart ≠ [] ∨ fracPart ≠ []) ∧ intPart.all Char.isDigit ∧
        fracPart.all Char.isDigit then
      some (neg, digitsToNat (intPart ++ fracPart), fracPart.length)
    else
      none

/-- Python `float()` applied to a string: the rational value of the
parsed decimal literal, `none` when `float()` raises. -/
def pyFloat (str : String) : Option ℚ :=
  (parseDecimal str).map
    (fun p => (if p.1 then -1 else 1) * (p.2.1 : ℚ) / (10 : ℚ) ^ p.2.2)

/-- Embedding of `Service.validate_costs` of `app/models.py`, taking the
decimal-as-string inputs the form layer passes: `None` means the field is
not being set, the empty string (falsy) clears the column to `NULL`, a
parsable number is stored, and anything else raises
`"… must be a valid number"`.  The estimated cost is processed before the
actual cost, so a failure on the actual cost keeps an already applied
estimated-cost mutation (the error carries the object state at the
raise). -/
def Service.validate_costs (s : Service)
    (estimated_cost actual_cost : Option String) :
    Except (String × Service) Service :=
  let step1 : Except (String × Service) Service :=
    match estimated_cost with
    | none => .ok s
    | some str =>
      if str ≠ "" then
        match pyFloat str with
        | some v => .ok { s with estimated_cost := some v }
        | none => .error ("Estimated cost must be a valid number", s)
      else
        .ok { s with estimated_cost := none }
  match step1 with
  | .error e => .error e
  | .ok s1 =>
    match actual_cost with
    | none => .ok s1
    | some str =>
      if str ≠ "" then
        match pyFloat str with
        | some v => .ok { s1 with actual_cost := some v }
        | none => .error ("Actual cost must be a valid number", s1)
      else
        .ok { s1 with actual_cost := none }

/-- A freshly created `Service`: the column defaults of `app/models.py`
(default status `pending`, nullable employee/dates/costs) and an empty history. -/
def freshService : Service :=
  { status := Status.pending
    employee_id := none
    preferred_date := none
    scheduled_date := none
    estimated_cost := none
    actual_cost := none
    history := [] }

/-- One invocation of a workflow operation, with its parameters. -/
inductive Op where
  | updStatus (new_status : Status) (user_id : Nat) (note : Option String)
  | assignEmp (employee_id : Nat) (user_id : Nat)
  | reqDate (new_date : PyDate) (user_id : Nat) (is_client_request : Bool)
  | confDate (user_id : Nat)
  | rejDate (user_id : Nat) (reason : Option String)
  | cancelOp (user_id : Nat) (reason : Option String)
deriving DecidableEq, Repr

/-- Apply one workflow operation; `none` when the operation raises (a
raising operation leaves the service as it was, so reachability only
chains successful applications). -/
def applyOp (users : Nat → String) (s : Service) : Op → Option Service
  | .updStatus t u note => (s.update_status t u note).toOption
  | .assignEmp e u => some (s.assign_employee users e u)
  | .reqDate d u c => (s.request_date_change d u c).toOption
  | .confDate u => (s.confirm_date u).toOption
  | .rejDate u r => (s.reject_date u r).toOption
  | .cancelOp u r => (s.cancel u r).toOption

/-- Reachability through successful workflow operations drawn from the
subset that `allowed` admits. -/
inductive ReachVia (users : Nat → String) (allowed : Op → Bool) :
    Service → Service → Prop
  | refl (s : Service) : ReachVia users allowed s s
  | step {s s' s'' : Service} (op : Op) : ReachVia users allowed s s' →
      allowed op = true → applyOp users s' op = some s'' →
      ReachVia users allowed s s''

/-- Every workflow operation is admitted. -/
def anyOp : Op → Bool := fun _ => true

/-- Every workflow operation except an employee-side date proposal
(`request_date_change` with `is_client_request = False`). -/
def clientDateOnly : Op → Bool
  | .reqDate _ _ false => false
  | _ => true

/-- Replace the acting user recorded on the last history entry. -/
def setLastUser (u : Nat) : List HistoryEntry → List HistoryEntry
  | [] => []
  | [e] => [{ e with user_id := u }]
  | e :: rest => e :: setLastUser u rest

/-- A Service sitting in `client_confirmed` with an assigned employee. -/
def svcClientConfirmed : Service :=
  { freshService with status := Status.client_confirmed, employee_id := some 2 }

/-- A Service sitting in `accepted` with an assigned employee: not a
client-cancellable status, yet `cancel` succeeds from it. -/
def svcAccepted : Service :=
  { freshService with status := Status.accepted, employee_id := some 2 }

/-- A Service carrying non-null costs, to witness clearing and
preservation. -/
def svcCosts : Service :=
  { freshService with estimated_cost := some 10, actual_cost := some 20 }

/-- An arbitrary full-name environment for reachability statements. -/
def usersEnv : Nat → String := fun _ => "Erin Employee"

/-- The Service produced by an employee-side date proposal on a fresh
Service: status `scheduled` with no employee assigned. -/
def svcNoEmpScheduled : Service :=
  { freshService with
      status := Status.scheduled,
      preferred_date := some ⟨"2025-01-01"⟩,
      scheduled_date := some ⟨"2025-01-01"⟩,
      history := [⟨1, "Employee proposed new date: 2025-01-01"⟩] }

/-- The columns of a `Vehicle` row that the form validators of
`app/forms.py` consult: primary key, VIN, license plate. -/
structure Vehicle where
  id : Nat
  vin : String
  license_plate : String
deriving DecidableEq, Repr

/-- Embedding of `Vehicle.query.filter_by(vin=...).first()`: first registry row with
the given VIN. -/
def firstByVin (reg : List Vehicle) (vinData : String) : Option Vehicle :=
  reg.find? (fun v => v.vin == vinData)

/-- Embedding of `Vehicle.query.filter_by(license_plate=...).first()`. -/
def firstByPlate (reg : List Vehicle) (plateData : String) : Option Vehicle :=
  reg.find? (fun v => v.license_plate == plateData)

/-- Embedding of `VehicleForm.validate_vin` / `ClientVehicleForm.validate_vin` of
`app/forms.py` (identical logic): raise iff some vehicle carries the
submitted VIN and it is not the vehicle being edited (`self.vehicle`,
`none` on create). -/
def validate_vin_fails (reg : List Vehicle) (editing : Option Vehicle)
    (vinData : String) : Bool :=
  match firstByVin reg vinData with
  | none => false
  | some vehicle =>
    match editing with
    | none => true
    | some e => vehicle.id != e.id

/-- Embedding of `VehicleForm.validate_license_plate` /
`ClientVehicleForm.validate_license_plate` of `app/forms.py`. -/
def validate_license_plate_fails (reg : List Vehicle)
    (editing : Option Vehicle) (plateData : String) : Bool :=
  match firstByPlate reg plateData with
  | none => false
  | some vehicle =>
    match editing with
    | none => true
    | some e => vehicle.id != e.id

/-- The form fails with a uniqueness error iff either custom validator
raises. -/
def vehicle_uniqueness_fails (reg : List Vehicle) (editing : Option Vehicle)
    (vinData plateData : String) : Bool :=
  validate_vin_fails reg editing vinData ||
    validate_license_plate_fails reg editing plateData

/-- The `year` field validators of `VehicleForm`/`ClientVehicleForm`:
`DataRequired` (an integer `0` is falsy and rejected) and
`NumberRange(min=1900, max=current_year + 1)`. -/
def year_field_ok (current_year y : Int) : Bool :=
  (y != 0) && (decide (1900 ≤ y) && decide (y ≤ current_year + 1))

lemma pyTruthyOptNat_ne_none {o : Option Nat} (h : pyTruthyOptNat o = true) :
    o ≠ none := by
  cases o with
  | none => simp [pyTruthyOptNat] at h
  | some k => simp

lemma pyTruthyOptNat_of_wf {o : Option Nat} (hwf : o ≠ some 0)
    (h : o ≠ none) : pyTruthyOptNat o = true := by
  cases o with
  | none => exact absurd rfl h
  | some k =>
    cases k with
    | zero => exact absurd rfl hwf
    | succ n => simp [pyTruthyOptNat]

/-- C1: `can_transition_to(t)` is true iff `t` is in the transition
edge set of the current status in the transition table (an empty list for the terminal
statuses `finished` and `cancelled`) and (`t` is not employee-required or
`employee_id` is set).  The embedding is a pure function of the Service,
so the query mutates nothing.  The hypothesis states well-formedness of
the `employee_id` foreign key: user ids are positive, so the column is
never `0`. -/
theorem can_transition_to_spec (s : Service) (t : Status)
    (hwf : s.employee_id ≠ some 0) :
    (s.can_transition_to t = true ↔
      t ∈ STATUS_TRANSITIONS s.status ∧
        (t ∉ EMPLOYEE_REQUIRED_STATES ∨ s.employee_id ≠ none)) ∧
    STATUS_TRANSITIONS Status.finished = [] ∧
    STATUS_TRANSITIONS Status.cancelled = [] := by
  refine ⟨?_, rfl, rfl⟩
  unfold Service.can_transition_to
  by_cases hm : t ∈ STATUS_TRANSITIONS s.status
  · by_cases hr : t ∈ EMPLOYEE_REQUIRED_STATES
    · cases he : s.employee_id with
      | none => simp [hm, hr, pyTruthyOptNat]
      | some k =>
        have hk : k ≠ 0 := by
          intro h0
          exact hwf (by rw [he, h0])
        simp [hm, hr, pyTruthyOptNat, hk]
    · simp [hm, hr]
  · simp [hm]

/-- Witness for `can_transition_to_spec` at a concrete Service. -/
theorem can_transition_to_spec_witness :
    ({ freshService with employee_id := some 1 } : Service).employee_id ≠ some 0 ∧
    (({ freshService with employee_id := some 1 } : Service).can_transition_to
        Status.accepted = true ↔
      Status.accepted ∈ STATUS_TRANSITIONS Status.pending ∧
        (Status.accepted ∉ EMPLOYEE_REQUIRED_STATES ∨
          ({ freshService with employee_id := some 1 } : Service).employee_id ≠ none)) :=
  ⟨by decide,
   (can_transition_to_spec { freshService with employee_id := some 1 }
     Status.accepted (by decide)).1⟩

/-- C4: `update_status` rejects exactly when `can_transition_to` is
false, and the raised error reports the missing-employee cause whenever
the target is employee-required and no employee is assigned, otherwise
the no-such-edge cause.  The well-formedness hypothesis is as in
`can_transition_to_spec`. -/
theorem update_status_error_cause (s : Service) (t : Status) (u : Nat)
    (note : Option String) (hwf : s.employee_id ≠ some 0) :
    ((∃ e, s.update_status t u note = .error e) ↔
      s.can_transition_to t = false) ∧
    (s.can_transition_to t = false →
      s.update_status t u note = .error
        ((if t ∈ EMPLOYEE_REQUIRED_STATES ∧ s.employee_id = none then
            "Cannot transition to this status without assigned employee"
          else
            "Invalid status transition from " ++ statusStr s.status
              ++ " to " ++ statusStr t), s)) := by
  by_cases hc : s.can_transition_to t = true
  · refine ⟨⟨?_, ?_⟩, ?_⟩
    · rintro ⟨e, he⟩
      rw [Service.update_status, if_neg (by simp [hc])] at he
      cases he
    · intro h
      rw [hc] at h
      cases h
    · intro h
      rw [hc] at h
      cases h
  · have hcf : s.can_transition_to t = false := by
      cases h : s.can_transition_to t with
      | true => exact absurd h hc
      | false => rfl
    refine ⟨⟨fun _ => hcf, ?_⟩, ?_⟩
    · intro _
      rw [Service.update_status, if_pos (by simp [hcf])]
      by_cases hr : t ∈ EMPLOYEE_REQUIRED_STATES ∧ ¬ pyTruthyOptNat s.employee_id
      · exact ⟨("Cannot transition to this status without assigned employee", s),
          if_pos hr⟩
      · exact ⟨("Invalid status transition from " ++ statusStr s.status
          ++ " to " ++ statusStr t, s), if_neg hr⟩
    · intro _
      rw [Service.update_status, if_pos (by simp [hcf])]
      by_cases hr : t ∈ EMPLOYEE_REQUIRED_STATES ∧ ¬ pyTruthyOptNat s.employee_id
      · have hnone : s.employee_id = none := by
          cases he : s.employee_id with
          | none => rfl
          | some k =>
            exfalso
            apply hr.2
            have hk : k ≠ 0 := fun h0 => hwf (by rw [he, h0])
            simp [he, pyTruthyOptNat, hk]
        rw [if_pos hr, if_pos ⟨hr.1, hnone⟩]
      · have hcond : ¬(t ∈ EMPLOYEE_REQUIRED_STATES ∧ s.employee_id = none) :=
          fun hx => hr ⟨hx.1, by simp [hx.2, pyTruthyOptNat]⟩
        rw [if_neg hr, if_neg hcond]

/-- Witness for `update_status_error_cause`: the spec scenario — a fresh
`pending` Service with no employee, asked to move to `scheduled`, raises
the missing-employee error (not the no-such-edge error), even though the
edge is also missing. -/
theorem update_status_error_cause_witness :
    freshService.update_status Status.scheduled 3 none =
      .error ("Cannot transition to this status without assigned employee",
              freshService) := by
  have h := (update_status_error_cause freshService Status.scheduled 3 none
    (by decide)).2 (by decide)
  rw [if_pos (by decide :
    Status.scheduled ∈ EMPLOYEE_REQUIRED_STATES ∧
      freshService.employee_id = none)] at h
  exact h

/-- C2: a successful `update_status` sets exactly the requested status
and appends exactly one new history row, described by
`"Status changed from <old> to <new>"` with `": <note>"` appended when a
(non-empty) note is given, leaving every other field untouched; a failing
`update_status` raises before mutating anything, so the carried object
state equals the original and no history row is added. -/
theorem update_status_atomic (s : Service) (t : Status) (u : Nat)
    (note : Option String) :
    (∀ r, s.update_status t u note = .ok r →
      r.status = t ∧
      r.history = s.history ++
        [⟨u, pyAppendNote ("Status changed from " ++ statusStr s.status
              ++ " to " ++ statusStr t) note⟩] ∧
      r.employee_id = s.employee_id ∧
      r.preferred_date = s.preferred_date ∧
      r.scheduled_date = s.scheduled_date ∧
      r.estimated_cost = s.estimated_cost ∧
      r.actual_cost = s.actual_cost) ∧
    (∀ msg s2, s.update_status t u note = .error (msg, s2) → s2 = s) := by
  constructor
  · intro r hr
    rw [Service.update_status] at hr
    by_cases hc : s.can_transition_to t = true
    · rw [if_neg (by simp [hc])] at hr
      cases hr
      exact ⟨rfl, rfl, rfl, rfl, rfl, rfl, rfl⟩
    · rw [if_pos (by simpa using hc)] at hr
      by_cases hr2 : t ∈ EMPLOYEE_REQUIRED_STATES ∧ ¬ pyTruthyOptNat s.employee_id
      · rw [if_pos hr2] at hr
        cases hr
      · rw [if_neg hr2] at hr
        cases hr
  · intro msg s2 h
    rw [Service.update_status] at h
    by_cases hc : s.can_transition_to t = true
    · rw [if_neg (by simp [hc])] at h
      cases h
    · rw [if_pos (by simpa using hc)] at h
      by_cases hr2 : t ∈ EMPLOYEE_REQUIRED_STATES ∧ ¬ pyTruthyOptNat s.employee_id
      · rw [if_pos hr2] at h
        cases h
        rfl
      · rw [if_neg hr2] at h
        cases h
        rfl

/-- Witness for `update_status_atomic`: a `pending` Service with an
employee moved to `accepted` with a note. -/
theorem update_status_atomic_witness :
    ({ freshService with employee_id := some 1 } : Service).update_status
        Status.accepted 7 (some "go") =
      .ok { freshService with
              employee_id := some 1,
              status := Status.accepted,
              history := [⟨7, "Status changed from pending to accepted: go"⟩] } ∧
    ({ freshService with
        employee_id := some 1,
        status := Status.accepted,
        history := [⟨7, "Status changed from pending to accepted: go"⟩] } : Service).history =
      ({ freshService with employee_id := some 1 } : Service).history ++
        [⟨7, pyAppendNote "Status changed from pending to accepted" (some "go")⟩] := by
  refine ⟨by rfl, ?_⟩
  exact ((update_status_atomic { freshService with employee_id := some 1 }
    Status.accepted 7 (some "go")).1 _ (by rfl)).2.1

lemma setLastUser_append (u : Nat) (l : List HistoryEntry)
    (e : HistoryEntry) :
    setLastUser u (l ++ [e]) = l ++ [{ e with user_id := u }] := by
  induction l with
  | nil => rfl
  | cons a l ih =>
    cases l with
    | nil => rfl
    | cons b l' => exact congrArg (List.cons a) ih

/-- C10: the outcome of `update_status` does not depend on the acting
user: with the same Service, target status and note, two different actors
get the same success/failure verdict, the same error message and carried
state on failure, and on success the same resulting Service except for
the user attribution on the one appended history row. -/
theorem update_status_user_independent (s : Service) (t : Status)
    (note : Option String) (u1 u2 : Nat) :
    s.update_status t u1 note =
      Except.map (fun r => { r with history := setLastUser u1 r.history })
        (s.update_status t u2 note) := by
  rw [Service.update_status, Service.update_status]
  by_cases hc : s.can_transition_to t = true
  · rw [if_neg (not_not_intro hc), if_neg (not_not_intro hc)]
    show _ = Except.ok _
    rw [Except.ok.injEq]
    unfold Service.add_history_entry
    rw [Service.mk.injEq]
    refine ⟨rfl, rfl, rfl, rfl, rfl, rfl, ?_⟩
    rw [setLastUser_append]
  · rw [if_pos hc, if_pos hc]
    by_cases hr : t ∈ EMPLOYEE_REQUIRED_STATES ∧ ¬ pyTruthyOptNat s.employee_id
    · rw [if_pos hr]
      rfl
    · rw [if_neg hr]
      rfl

/-- C5: `assign_employee` never consults the transition table: from
`pending` it moves the Service to `accepted` logging
`"Service assigned to <full name>"`; from every other status (terminal
ones included) it keeps the status and logs
`"Service reassigned from <old or None> to <new>"`; in both cases
`employee_id` becomes the given id. -/
theorem assign_employee_spec (users : Nat → String) (s : Service)
    (e u : Nat) :
    s.assign_employee users e u =
      { s with
        status := if s.status = Status.pending then Status.accepted else s.status,
        employee_id := some e,
        history := s.history ++
          [⟨u, if s.status = Status.pending then
                 "Service assigned to " ++ users e
               else
                 "Service reassigned from " ++
                   (match s.employee_id with
                    | some k => users k
                    | none => "None") ++ " to " ++ users e⟩] } := by
  rw [Service.assign_employee]
  by_cases h : s.status = Status.pending
  · simp only [h, if_pos rfl, if_true]
    rfl
  · simp only [if_neg h]
    rfl

/-- Counterexample to C6 as stated: a client date-change request on a
fresh `pending` Service — a status outside
`CLIENT_DATE_CHANGE_STATES = [scheduled, client_confirmed]` — succeeds
instead of raising, while the same request from `client_confirmed`, a
member of that list, raises.  `request_date_change` guards client
requests with the hard-coded list `[pending, accepted, scheduled]`, not
with `CLIENT_DATE_CHANGE_STATES`. -/
theorem client_date_change_cex :
    freshService.status ∉ CLIENT_DATE_CHANGE_STATES ∧
    freshService.request_date_change ⟨"2025-02-03"⟩ 4 true =
      .ok { freshService with
              preferred_date := some ⟨"2025-02-03"⟩,
              status := Status.pending,
              history := [⟨4, "Client requested date change to 2025-02-03"⟩] } ∧
    svcClientConfirmed.status ∈ CLIENT_DATE_CHANGE_STATES ∧
    svcClientConfirmed.request_date_change ⟨"2025-02-03"⟩ 4 true =
      .error ("Client can only request date changes for pending or scheduled services",
              svcClientConfirmed) :=
  ⟨by decide, by rfl, by decide, by rfl⟩

/-- C6 amended: a date-change request by the client is allowed exactly when
the status is in the hard-coded list `[pending, accepted, scheduled]`
(`can_client_request_date_change` still answers for
`[scheduled, client_confirmed]`), and raises from every other status; on
success it sets `preferred_date`, forces the status back to `pending`,
and appends one history entry recording the requested date, attributed to
the actor. -/
theorem client_request_date_change_spec (s : Service) (d : PyDate)
    (u : Nat) :
    s.request_date_change d u true =
      (if s.status ∈ [Status.pending, Status.accepted, Status.scheduled] then
        .ok { s with
                preferred_date := some d,
                status := Status.pending,
                history := s.history ++
                  [⟨u, "Client requested date change to " ++ d.ymd⟩] }
      else
        .error ("Client can only request date changes for pending or scheduled services",
                s)) ∧
    (s.can_client_request_date_change = true ↔
      s.status ∈ [Status.scheduled, Status.client_confirmed]) := by
  constructor
  · rw [Service.request_date_change]
    by_cases h : s.status ∈ [Status.pending, Status.accepted, Status.scheduled]
    · rw [if_neg (by simp [h]), if_pos h]
      rfl
    · rw [if_pos ⟨rfl, h⟩, if_neg h]
  · rw [Service.can_client_request_date_change]
    simp [CLIENT_DATE_CHANGE_STATES]

/-- Counterexample to C7 as stated: from `accepted`, which is outside
`CLIENT_CANCELLABLE_STATES`, `cancel` succeeds rather than raising —
`cancel` is guarded only by `can_transition_to` with target `cancelled`, and every
non-terminal status has an edge to `cancelled`. -/
theorem client_cancel_cex :
    svcAccepted.can_client_cancel = false ∧
    svcAccepted.cancel 9 none =
      .ok { svcAccepted with
              status := Status.cancelled,
              history := [⟨9, "Service cancelled"⟩] } :=
  ⟨by decide, by rfl⟩

/-- C7 amended: `can_client_cancel()` is true exactly for status in
`{pending, scheduled, client_confirmed}`; but `cancel` raises (leaving
the Service unchanged, as the carried state shows) exactly from the two
terminal statuses `finished` and `cancelled`, and succeeds from every
other status, client-cancellable or not. -/
theorem can_client_cancel_and_cancel_spec (s : Service) (u : Nat)
    (reason : Option String) :
    (s.can_client_cancel = true ↔
      (s.status = Status.pending ∨ s.status = Status.scheduled ∨
        s.status = Status.client_confirmed)) ∧
    (s.cancel u reason =
      if s.status = Status.finished ∨ s.status = Status.cancelled then
        .error ("Service cannot be cancelled in its current state", s)
      else
        .ok { s with
                status := Status.cancelled,
                history := s.history ++
                  [⟨u, pyAppendNote "Service cancelled" reason⟩] }) := by
  obtain ⟨st, emp, pd, sd, ec, ac, hist⟩ := s
  constructor
  · rw [Service.can_client_cancel]
    cases st <;> simp [CLIENT_CANCELLABLE_STATES]
  · rw [Service.cancel]
    cases st <;>
      simp [Service.can_transition_to, STATUS_TRANSITIONS,
        EMPLOYEE_REQUIRED_STATES, Service.add_history_entry]

/-- C8: for each cost setter of `validate_costs`, the empty string clears
the stored column to null, `"150.5"` stores the number 150.5, and
`"abc"` raises `"… must be a valid number"` carrying the object state
unchanged (the other column keeps its value throughout). -/
theorem validate_costs_spec :
    svcCosts.validate_costs (some "") none =
      .ok { svcCosts with estimated_cost := none } ∧
    svcCosts.validate_costs (some "150.5") none =
      .ok { svcCosts with estimated_cost := some ((301 : ℚ) / 2) } ∧
    svcCosts.validate_costs (some "abc") none =
      .error ("Estimated cost must be a valid number", svcCosts) ∧
    svcCosts.validate_costs none (some "") =
      .ok { svcCosts with actual_cost := none } ∧
    svcCosts.validate_costs none (some "150.5") =
      .ok { svcCosts with actual_cost := some ((301 : ℚ) / 2) } ∧
    svcCosts.validate_costs none (some "abc") =
      .error ("Actual cost must be a valid number", svcCosts) := by
  have hval : pyFloat "150.5" = some ((301 : ℚ) / 2) := by
    rw [pyFloat, (by decide : parseDecimal "150.5" = some (false, 1505, 1))]
    norm_num
  refine ⟨by decide, ?_, by decide, by decide, ?_, by decide⟩ <;>
    simp [Service.validate_costs, hval]

/-- Counterexample to C3 as stated: one workflow operation —
`request_date_change` with `is_client_request=False` (an employee date
proposal) — applied to a freshly created Service reaches a Service whose
status `scheduled` is employee-required while `employee_id` is still
null; the employee branch of `request_date_change` checks neither the
transition table nor employee assignment. -/
theorem employee_invariant_cex :
    ReachVia usersEnv anyOp freshService svcNoEmpScheduled ∧
    svcNoEmpScheduled.status ∈ EMPLOYEE_REQUIRED_STATES ∧
    svcNoEmpScheduled.employee_id = none :=
  ⟨ReachVia.step (Op.reqDate ⟨"2025-01-01"⟩ 1 false) (ReachVia.refl _)
      rfl (by rfl),
   by decide, rfl⟩

lemma can_transition_to_employee {s : Service} {t : Status}
    (h : s.can_transition_to t = true) (hm : t ∈ EMPLOYEE_REQUIRED_STATES) :
    s.employee_id ≠ none := by
  rw [Service.can_transition_to] at h
  by_cases h1 : t ∈ STATUS_TRANSITIONS s.status
  · rw [if_neg (by simp [h1])] at h
    by_cases h2 : t ∈ EMPLOYEE_REQUIRED_STATES ∧ ¬ pyTruthyOptNat s.employee_id
    · rw [if_pos h2] at h
      cases h
    · intro hn
      exact h2 ⟨hm, by simp [hn, pyTruthyOptNat]⟩
  · rw [if_pos h1] at h
    cases h

lemma applyOp_preserves_empInv (users : Nat → String) {s s' : Service}
    {op : Op} (hop : clientDateOnly op = true)
    (happ : applyOp users s op = some s')
    (_ih : s.status ∈ EMPLOYEE_REQUIRED_STATES → s.employee_id ≠ none) :
    s'.status ∈ EMPLOYEE_REQUIRED_STATES → s'.employee_id ≠ none := by
  cases op with
  | updStatus t u note =>
    simp only [applyOp] at happ
    rw [Service.update_status] at happ
    by_cases hc : s.can_transition_to t = true
    · rw [if_neg (not_not_intro hc)] at happ
      simp only [Except.toOption] at happ
      cases happ
      intro hm
      show s.employee_id ≠ none
      exact can_transition_to_employee hc hm
    · rw [if_pos hc] at happ
      by_cases hr : t ∈ EMPLOYEE_REQUIRED_STATES ∧ ¬ pyTruthyOptNat s.employee_id
      · rw [if_pos hr] at happ
        cases happ
      · rw [if_neg hr] at happ
        cases happ
  | assignEmp e u =>
    simp only [applyOp] at happ
    cases happ
    intro _
    rw [Service.assign_employee]
    by_cases h : s.status = Status.pending <;> simp [h]
  | reqDate d u c =>
    cases c with
    | false => cases hop
    | true =>
      simp only [applyOp] at happ
      rw [Service.request_date_change] at happ
      by_cases hg : s.status ∈ [Status.pending, Status.accepted, Status.scheduled]
      · rw [if_neg (by simp [hg])] at happ
        simp only [if_pos rfl, Except.toOption] at happ
        cases happ
        intro hm
        exact absurd (show Status.pending ∈ EMPLOYEE_REQUIRED_STATES from hm)
          (by decide)
      · rw [if_pos ⟨rfl, hg⟩] at happ
        cases happ
  | confDate u =>
    simp only [applyOp] at happ
    rw [Service.confirm_date] at happ
    by_cases h1 : s.status ≠ Status.scheduled
    · rw [if_pos h1] at happ
      cases happ
    · rw [if_neg h1] at happ
      by_cases h2 : ¬ pyTruthyOptNat s.employee_id
      · rw [if_pos h2] at happ
        cases happ
      · rw [if_neg h2] at happ
        simp only [Except.toOption] at happ
        cases happ
        intro _
        exact pyTruthyOptNat_ne_none (not_not.mp (by simpa using h2))
  | rejDate u r =>
    simp only [applyOp] at happ
    rw [Service.reject_date] at happ
    by_cases h1 : s.status ≠ Status.scheduled
    · rw [if_pos h1] at happ
      cases happ
    · rw [if_neg h1] at happ
      simp only [Except.toOption] at happ
      cases happ
      intro hm
      exact absurd (show Status.pending ∈ EMPLOYEE_REQUIRED_STATES from hm)
        (by decide)
  | cancelOp u r =>
    simp only [applyOp] at happ
    rw [Service.cancel] at happ
    by_cases hc : s.can_transition_to Status.cancelled = true
    · rw [if_neg (not_not_intro hc)] at happ
      simp only [Except.toOption] at happ
      cases happ
      intro hm
      exact absurd (show Status.cancelled ∈ EMPLOYEE_REQUIRED_STATES from hm)
        (by decide)
    · rw [if_pos hc] at happ
      cases happ

/-- C3 amended: the employee-required invariant — `employee_id` is
non-null whenever the status is employee-required (every status except
`pending` and `cancelled`) — holds for every Service reachable from a
fresh one by workflow operations, provided `request_date_change` is only
ever invoked as a client request; the unguarded employee date-proposal
branch (see `employee_invariant_cex`) is the one operation that can break
it. -/
theorem employee_required_invariant (users : Nat → String) (s : Service)
    (h : ReachVia users clientDateOnly freshService s) :
    s.status ∈ EMPLOYEE_REQUIRED_STATES → s.employee_id ≠ none := by
  have hfresh : freshService.status ∈ EMPLOYEE_REQUIRED_STATES →
      freshService.employee_id ≠ none :=
    fun hm => absurd hm (by decide)
  generalize hgen : freshService = s0 at h
  rw [hgen] at hfresh
  induction h with
  | refl => exact hfresh
  | step op h1 h2 h3 ih => exact applyOp_preserves_empInv users h2 h3 ih

/-- Witness for `employee_required_invariant`: the invariant at a Service
reached by assigning employee 5 and then scheduling — its status is
employee-required and its employee reference is non-null. -/
theorem employee_required_invariant_witness :
    ({ freshService with
         status := Status.scheduled,
         employee_id := some 5,
         history := [⟨1, "Service assigned to Erin Employee"⟩,
                     ⟨1, "Status changed from accepted to scheduled"⟩] } : Service).status
        ∈ EMPLOYEE_REQUIRED_STATES ∧
      ({ freshService with
           status := Status.scheduled,
           employee_id := some 5,
           history := [⟨1, "Service assigned to Erin Employee"⟩,
                       ⟨1, "Status changed from accepted to scheduled"⟩] } : Service).employee_id
        ≠ none :=
  ⟨by decide,
   employee_required_invariant usersEnv _
     (ReachVia.step (Op.updStatus Status.scheduled 1 none)
       (ReachVia.step (Op.assignEmp 5 1) (ReachVia.refl _) rfl (by rfl))
       rfl (by rfl))
     (by decide)⟩

lemma find_fails_iff (reg : List Vehicle) (editing : Option Vehicle)
    (key : Vehicle → String) (dat : String)
    (hnd : (reg.map key).Nodup) :
    (match reg.find? (fun v => key v == dat) with
      | none => false
      | some vehicle =>
        match editing with
        | none => true
        | some e => vehicle.id != e.id) = true ↔
      ∃ v ∈ reg, key v = dat ∧ ∀ e, editing = some e → v.id ≠ e.id := by
  cases hf : reg.find? (fun v => key v == dat) with
  | none =>
    have hnone := List.find?_eq_none.mp hf
    simp only [Bool.false_eq_true, false_iff]
    rintro ⟨v, hv, hkey, -⟩
    exact hnone v hv (by simp [hkey])
  | some w =>
    have hwmem : w ∈ reg := List.mem_of_find?_eq_some hf
    have hwkey : key w = dat := by
      have := List.find?_some hf
      simpa using this
    have huniq : ∀ v ∈ reg, key v = dat → v = w := by
      intro v hv hkey
      exact List.inj_on_of_nodup_map hnd hv hwmem (by rw [hkey, hwkey])
    cases editing with
    | none =>
      simp only [true_iff]
      exact ⟨w, hwmem, hwkey, fun e he => by cases he⟩
    | some e =>
      constructor
      · intro hne
        refine ⟨w, hwmem, hwkey, fun e' he' => ?_⟩
        cases he'
        simpa using hne
      · rintro ⟨v, hv, hkey, hid⟩
        have hvw := huniq v hv hkey
        subst hvw
        simpa using hid e rfl

/-- C9: with the database uniqueness constraints in force (no two rows
share a VIN, no two share a plate), vehicle create/update fails the
uniqueness validation iff the submitted VIN or plate collides with a
VIN or plate of a different vehicle — in particular a vehicle keeping its
own VIN/plate on update passes — and the submitted year is accepted iff
it lies in [1900, current_year + 1]. -/
theorem vehicle_form_spec (reg : List Vehicle) (editing : Option Vehicle)
    (vinD plateD : String) (cy y : Int)
    (hvin : (reg.map Vehicle.vin).Nodup)
    (hplate : (reg.map Vehicle.license_plate).Nodup) :
    (vehicle_uniqueness_fails reg editing vinD plateD = true ↔
      ∃ v ∈ reg, (v.vin = vinD ∨ v.license_plate = plateD) ∧
        ∀ e, editing = some e → v.id ≠ e.id) ∧
    (year_field_ok cy y = true ↔ 1900 ≤ y ∧ y ≤ cy + 1) := by
  constructor
  · rw [vehicle_uniqueness_fails, Bool.or_eq_true]
    rw [show validate_vin_fails reg editing vinD =
        (match reg.find? (fun v => Vehicle.vin v == vinD) with
          | none => false
          | some vehicle =>
            match editing with
            | none => true
            | some e => vehicle.id != e.id) from rfl]
    rw [show validate_license_plate_fails reg editing plateD =
        (match reg.find? (fun v => Vehicle.license_plate v == plateD) with
          | none => false
          | some vehicle =>
            match editing with
            | none => true
            | some e => vehicle.id != e.id) from rfl]
    rw [find_fails_iff reg editing Vehicle.vin vinD hvin,
      find_fails_iff reg editing Vehicle.license_plate plateD hplate]
    constructor
    · rintro (⟨v, hv, hkey, hid⟩ | ⟨v, hv, hkey, hid⟩)
      · exact ⟨v, hv, Or.inl hkey, hid⟩
      · exact ⟨v, hv, Or.inr hkey, hid⟩
    · rintro ⟨v, hv, hkey | hkey, hid⟩
      · exact Or.inl ⟨v, hv, hkey, hid⟩
      · exact Or.inr ⟨v, hv, hkey, hid⟩
  · rw [year_field_ok]
    constructor
    · intro h
      simp only [Bool.and_eq_true, decide_eq_true_eq] at h
      exact ⟨h.2.1, h.2.2⟩
    · intro h
      simp only [Bool.and_eq_true, decide_eq_true_eq, bne_iff_ne]
      refine ⟨by omega, h.1, h.2⟩

/-- Witness for `vehicle_form_spec`: a two-vehicle registry where a new
vehicle reusing VIN "5YJSA1E26MF000001" collides, and an edit of vehicle
1 keeping its own VIN passes; year 2000 is accepted for current year
2025. -/
theorem vehicle_form_spec_witness :
    (vehicle_uniqueness_fails
        [⟨1, "5YJSA1E26MF000001", "KR12345"⟩, ⟨2, "WVWZZZ1JZXW000002", "GD54321"⟩]
        none "5YJSA1E26MF000001" "XX99999" = true ↔
      ∃ v ∈ [(⟨1, "5YJSA1E26MF000001", "KR12345"⟩ : Vehicle),
             ⟨2, "WVWZZZ1JZXW000002", "GD54321"⟩],
        (v.vin = "5YJSA1E26MF000001" ∨ v.license_plate = "XX99999") ∧
          ∀ e, (none : Option Vehicle) = some e → v.id ≠ e.id) ∧
    (year_field_ok 2025 2000 = true ↔ 1900 ≤ (2000 : Int) ∧ (2000 : Int) ≤ 2025 + 1) :=
  vehicle_form_spec
    [⟨1, "5YJSA1E26MF000001", "KR12345"⟩, ⟨2, "WVWZZZ1JZXW000002", "GD54321"⟩]
    none "5YJSA1E26MF000001" "XX99999" 2025 2000 (by decide) (by decide)
